import Mathlib

/-!
Shallow embedding of `src/zoho_integration.py` (class `ZohoBooks`): the
OAuth token manager (`_token_expired`, the `access_token` property,
`_refresh_access_token`), the retrying request executor (`_make_request`
under tenacity's `retry(stop=stop_after_attempt(3),
wait=wait_exponential(multiplier=1, min=4, max=10))`), and the invoice
accessor (`get_invoices`).

Time (`datetime.now()`) is modelled as an `Int` number of seconds; each
operation takes the current instant as an explicit argument.  HTTP traffic
is modelled by explicit outcome values (transport failure, or a status code
with a parsed body), and Python exceptions by an error type threaded
through `Except` / `Option`.
-/

namespace Zoho

/-- A JSON scalar, as returned by `response.json()` for a single field.
Only the shapes the claims exercise are needed: strings, integers, null. -/
inductive JsonV where
  | str (s : String)
  | num (n : Int)
  | null
deriving DecidableEq

/-- Parsed body of the authorization endpoint's response: the value under
`"access_token"` (if that key is present) and under `"expires_in"` (if
present).  The token value is modelled as a string, matching the
`Optional[str]` annotation of `_access_token`; `expires_in` is kept as a
raw JSON value because `timedelta(seconds=...)` rejects non-numeric ones. -/
structure RefreshBody where
  access_token : Option String
  expires_in : Option JsonV
deriving DecidableEq

/-- Outcome of the `requests.post` call in `_refresh_access_token`:
either the request itself raised (transport failure), or a response came
back with a status code and a body.  `body = none` models a body that
`response.json()` cannot parse. -/
inductive HttpResult where
  | transportError
  | response (status : Nat) (body : Option RefreshBody)
deriving DecidableEq

/-- The mutable token state of a `ZohoBooks` instance:
`_access_token : Optional[str]` and `_token_expires_at : Optional[datetime]`. -/
structure TokenState where
  access_token : Option String
  token_expires_at : Option Int
deriving DecidableEq

/-- The Python exceptions that flow through the embedded code.
`requestError` stands for any `requests.exceptions.RequestException`
(transport failure or the `HTTPError` from `raise_for_status`);
`jsonError` for the exception raised by `response.json()` on an
unparseable body; `keyError` for `data["access_token"]` on a missing key;
`typeError` for `timedelta(seconds=x)` with a non-numeric `x`;
`authError` / `apiError` for `ZohoAuthError` / `ZohoAPIError` (each
wrapping its `from e` cause); `retryError` for `tenacity.RetryError`
(wrapping the exception of the last attempt). -/
inductive PyErr where
  | requestError
  | jsonError
  | keyError
  | typeError
  | authError (cause : PyErr)
  | apiError (cause : PyErr)
  | retryError (last : PyErr)
deriving DecidableEq

/-- `requests.Response.raise_for_status` raises `HTTPError` exactly for
status codes in `[400, 600)`. -/
def status_raises (status : Nat) : Bool :=
  400 ≤ status && status < 600

/-- `ZohoBooks._token_expired`: true when `_token_expires_at` is unset
(`datetime` objects are always truthy, so `not self._token_expires_at`
tests only for `None`), or when `datetime.now() >= self._token_expires_at`. -/
def token_expired (st : TokenState) (now : Int) : Bool :=
  match st.token_expires_at with
  | none => true
  | some t => t ≤ now

/-- `ZohoBooks._refresh_access_token`, evaluated against an explicit
outcome `r` of the `requests.post` call, with `now` the instant
`datetime.now()` returns during the call.  Returns the state after the
call together with `some e` when the method raises `e`, or `none` on
success.  The two assignments of the Python body run in order: the
assignment to `_access_token` commits before the `expires_in` value is
fed to `timedelta(seconds=...)`, which raises `TypeError` on a
non-numeric value; every exception is caught by `except Exception` and
re-raised as `ZohoAuthError(...) from e`. -/
def refresh_access_token (st : TokenState) (now : Int) (r : HttpResult) :
    TokenState × Option PyErr :=
  match r with
  | .transportError => (st, some (.authError .requestError))
  | .response status body =>
    if status_raises status then
      (st, some (.authError .requestError))
    else
      match body with
      | none => (st, some (.authError .jsonError))
      | some data =>
        match data.access_token with
        | none => (st, some (.authError .keyError))
        | some tok =>
          let st1 : TokenState := { st with access_token := some tok }
          match data.expires_in with
          | none => ({ st1 with token_expires_at := some (now + 3600) }, none)
          | some (.num e) => ({ st1 with token_expires_at := some (now + e) }, none)
          | some _ => (st1, some (.authError .typeError))

/-- Python truthiness test `not self._access_token`: true for `None` and
for the empty string. -/
def token_falsy (t : Option String) : Bool :=
  match t with
  | none => true
  | some s => s = ""

/-- The `ZohoBooks.access_token` property: refresh when
`not self._access_token or self._token_expired`, then return
`self._access_token`.  The result carries the state after the call, the
returned token (or the raised error), and whether a refresh was
performed. -/
def access_token_get (st : TokenState) (now : Int) (r : HttpResult) :
    TokenState × Except PyErr (Option String) × Bool :=
  if token_falsy st.access_token || token_expired st now then
    match refresh_access_token st now r with
    | (st1, none) => (st1, .ok st1.access_token, true)
    | (st1, some e) => (st1, .error e, true)
  else
    (st, .ok st.access_token, false)

/-- An invoice record, a JSON object such as `{"id": "1", "amount": 100}`. -/
def Invoice := List (String × JsonV)
deriving DecidableEq

/-- Parsed body of a successful resource response: the value under the
`"invoices"` key when that key is present. -/
structure ResourceBody where
  invoices : Option (List Invoice)
deriving DecidableEq

/-- Outcome of the `requests.request` call of one attempt inside
`_make_request`: transport failure, or a response with a status code and
a parsed body (the claims do not exercise unparseable resource bodies,
so the body is kept always parseable here). -/
inductive ApiHttpResult where
  | transportError
  | response (status : Nat) (body : ResourceBody)
deriving DecidableEq

/-- One attempt of the body of `_make_request` (token acquisition assumed
to succeed, as in every claim about the executor): a
`requests.exceptions.RequestException` — transport failure or the
`HTTPError` from `raise_for_status` — is caught and re-raised as
`ZohoAPIError(...) from e`; otherwise `response.json()` is returned. -/
def make_request_once (r : ApiHttpResult) : Except PyErr ResourceBody :=
  match r with
  | .transportError => .error (.apiError .requestError)
  | .response status body =>
    if status_raises status then .error (.apiError .requestError)
    else .ok body

/-- tenacity's `wait_exponential(multiplier, min, max)` evaluated after a
failed attempt numbered `attempt_number` (1-based):
`max(max(0, min), min(multiplier * 2 ** (attempt_number - 1), max))`. -/
def wait_exponential (mult lo hi : Int) (attempt_number : Nat) : Int :=
  Max.max (Max.max 0 lo) (Min.min (mult * 2 ^ (attempt_number - 1)) hi)

/-- tenacity's retry loop under `stop_after_attempt` with default
`reraise=False`: `attemptNo` is the 1-based number of the next attempt and
`left` how many attempts the stop condition still allows.  On a failure
with attempts left, the loop sleeps `wait_exponential(1, 4, 10)` for the
attempt that just failed and retries (the default retry condition retries
on every `Exception`); on a failure with none left it raises
`tenacity.RetryError` wrapping the last attempt's exception.  Returns the
outcome, the number of attempts made, and the list of delays slept. -/
def retryLoop (outcomes : Nat → Except PyErr ResourceBody) :
    (attemptNo : Nat) → (left : Nat) → Except PyErr ResourceBody × Nat × List Int
  | attemptNo, 0 => (.error (.retryError .requestError), attemptNo - 1, [])
  | attemptNo, 1 =>
    match outcomes attemptNo with
    | .ok b => (.ok b, attemptNo, [])
    | .error e => (.error (.retryError e), attemptNo, [])
  | attemptNo, (left + 2) =>
    match outcomes attemptNo with
    | .ok b => (.ok b, attemptNo, [])
    | .error _ =>
      let rest := retryLoop outcomes (attemptNo + 1) (left + 1)
      (rest.1, rest.2.1, wait_exponential 1 4 10 attemptNo :: rest.2.2)

/-- `ZohoBooks._make_request` under its decorator
`retry(stop=stop_after_attempt(3), wait=wait_exponential(multiplier=1, min=4, max=10))`,
evaluated against the per-attempt HTTP outcomes `rs`. -/
def make_request (rs : Nat → ApiHttpResult) :
    Except PyErr ResourceBody × Nat × List Int :=
  retryLoop (fun n => make_request_once (rs n)) 1 3

/-- Python truthiness of an optional string argument (`if from_date:`). -/
def arg_truthy (v : Option String) : Bool :=
  match v with
  | none => false
  | some s => s ≠ ""

/-- `params[key] = v` guarded by `if v:`, on an insertion-ordered dict. -/
def add_param (ps : List (String × String)) (key : String) (v : Option String) :
    List (String × String) :=
  if arg_truthy v then ps ++ [(key, v.getD "")] else ps

/-- The query-parameter dict built by `ZohoBooks.get_invoices`: starts
from `{"organization_id": ...}` and conditionally inserts `date_start`,
`date_end`, `status` in that order. -/
def get_invoices_params (org : String) (from_date to_date status : Option String) :
    List (String × String) :=
  add_param (add_param (add_param [("organization_id", org)] "date_start" from_date)
    "date_end" to_date) "status" status

/-- `ZohoBooks.get_invoices`: builds the params, delegates to
`_make_request("GET", "invoices", params)` and returns
`response.get("invoices", [])`.  The result carries the returned invoice
list (or the propagated error), the query parameters that were sent, and
the number of attempts the executor made. -/
def get_invoices (org : String) (from_date to_date status : Option String)
    (rs : Nat → ApiHttpResult) :
    Except PyErr (List Invoice) × List (String × String) × Nat :=
  let params := get_invoices_params org from_date to_date status
  match make_request rs with
  | (.ok body, n, _) => (.ok (body.invoices.getD []), params, n)
  | (.error e, n, _) => (.error e, params, n)

/-! ### Helper lemmas -/

/-- Python truthiness of the stored token, characterized. -/
lemma token_falsy_iff (t : Option String) :
    token_falsy t = true ↔ t = none ∨ t = some "" := by
  cases t with
  | none => simp [token_falsy]
  | some s => simp [token_falsy]

/-- The `access_token` property refreshes exactly when
`not self._access_token or self._token_expired` holds. -/
lemma access_token_get_refresh_flag (st : TokenState) (now : Int) (r : HttpResult) :
    (access_token_get st now r).2.2 =
      (token_falsy st.access_token || token_expired st now) := by
  unfold access_token_get
  by_cases hc : (token_falsy st.access_token || token_expired st now) = true
  · rw [if_pos hc, hc]
    rcases h : refresh_access_token st now r with ⟨st1, e⟩
    cases e <;> rfl
  · rw [if_neg hc]
    simp only [Bool.not_eq_true] at hc
    rw [hc]

/-- Exhaustive case analysis of `_refresh_access_token`: the five failure
shapes and the two success shapes, each with its exact result. -/
lemma refresh_cases (st : TokenState) (now : Int) (r : HttpResult) :
    (r = .transportError ∧
      refresh_access_token st now r = (st, some (.authError .requestError))) ∨
    (∃ s b, r = .response s b ∧ status_raises s = true ∧
      refresh_access_token st now r = (st, some (.authError .requestError))) ∨
    (∃ s, r = .response s none ∧ status_raises s = false ∧
      refresh_access_token st now r = (st, some (.authError .jsonError))) ∨
    (∃ s ein, r = .response s (some ⟨none, ein⟩) ∧ status_raises s = false ∧
      refresh_access_token st now r = (st, some (.authError .keyError))) ∨
    (∃ s tok, r = .response s (some ⟨some tok, none⟩) ∧ status_raises s = false ∧
      refresh_access_token st now r =
        ({ access_token := some tok, token_expires_at := some (now + 3600) }, none)) ∨
    (∃ s tok e, r = .response s (some ⟨some tok, some (.num e)⟩) ∧
      status_raises s = false ∧
      refresh_access_token st now r =
        ({ access_token := some tok, token_expires_at := some (now + e) }, none)) ∨
    (∃ s tok v, r = .response s (some ⟨some tok, some v⟩) ∧ status_raises s = false ∧
      (∀ n : Int, v ≠ .num n) ∧
      refresh_access_token st now r =
        ({ st with access_token := some tok }, some (.authError .typeError))) := by
  cases r with
  | transportError => exact Or.inl ⟨rfl, rfl⟩
  | response s body =>
    by_cases hs : status_raises s = true
    · exact Or.inr (Or.inl ⟨s, body, rfl, hs, by simp [refresh_access_token, hs]⟩)
    · rw [Bool.not_eq_true] at hs
      cases body with
      | none =>
        exact Or.inr (Or.inr (Or.inl ⟨s, rfl, hs, by simp [refresh_access_token, hs]⟩))
      | some data =>
        obtain ⟨tk, ein⟩ := data
        cases tk with
        | none =>
          exact Or.inr (Or.inr (Or.inr (Or.inl
            ⟨s, ein, rfl, hs, by simp [refresh_access_token, hs]⟩)))
        | some tok =>
          cases ein with
          | none =>
            exact Or.inr (Or.inr (Or.inr (Or.inr (Or.inl
              ⟨s, tok, rfl, hs, by simp [refresh_access_token, hs]⟩))))
          | some v =>
            cases v with
            | num e =>
              exact Or.inr (Or.inr (Or.inr (Or.inr (Or.inr (Or.inl
                ⟨s, tok, e, rfl, hs, by simp [refresh_access_token, hs]⟩)))))
            | str sv =>
              refine Or.inr (Or.inr (Or.inr (Or.inr (Or.inr (Or.inr
                ⟨s, tok, .str sv, rfl, hs, ?_, ?_⟩)))))
              · intro n h
                exact JsonV.noConfusion h
              · simp [refresh_access_token, hs]
            | null =>
              refine Or.inr (Or.inr (Or.inr (Or.inr (Or.inr (Or.inr
                ⟨s, tok, .null, rfl, hs, ?_, ?_⟩)))))
              · intro n h
                exact JsonV.noConfusion h
              · simp [refresh_access_token, hs]

/-- Omitted argument: no parameter inserted. -/
lemma add_param_of_none (ps : List (String × String)) (key : String) :
    add_param ps key none = ps := rfl

/-- Empty-string argument: falsy, so no parameter inserted. -/
lemma add_param_of_empty (ps : List (String × String)) (key : String) :
    add_param ps key (some "") = ps := rfl

/-- Non-empty argument: the parameter is appended. -/
lemma add_param_of_some (ps : List (String × String)) (key : String) {s : String}
    (h : s ≠ "") : add_param ps key (some s) = ps ++ [(key, s)] := by
  simp [add_param, arg_truthy, h]

/-- A non-`some ""` argument contributes exactly its `Option.toList` image. -/
lemma add_param_toList (ps : List (String × String)) (key : String) (v : Option String)
    (hv : v ≠ some "") :
    add_param ps key v = ps ++ (v.map fun s => (key, s)).toList := by
  cases v with
  | none => simp [add_param_of_none]
  | some s =>
    have hs : s ≠ "" := fun h => hv (by rw [h])
    rw [add_param_of_some _ _ hs]
    rfl

/-- `get_invoices` passes exactly the params dict it built to the executor. -/
lemma get_invoices_sends_params (org : String) (fd td stt : Option String)
    (rs : Nat → ApiHttpResult) :
    (get_invoices org fd td stt rs).2.1 = get_invoices_params org fd td stt := by
  unfold get_invoices
  rcases h : make_request rs with ⟨res, n, ds⟩
  cases res with
  | ok b => rfl
  | error e => rfl

/-! ### Claim theorems -/

/-- C1 (code bug): when every attempt of `_make_request` fails with a
`RequestException` (here: transport failure on all attempts), the
executor makes exactly 3 attempts and then raises `tenacity.RetryError`
wrapping the final `ZohoAPIError` — not a `ZohoAPIError`, contrary to
the claim, to the method's own docstring (`Raises: ZohoAPIError`) and to
`test_make_request_failure`, because the decorator leaves tenacity's
default `reraise=False` in place. -/
theorem C1_make_request_exhaustion :
    make_request (fun _ => .transportError) =
      (.error (.retryError (.apiError .requestError)), 3, [4, 4]) ∧
    ∀ c : PyErr, PyErr.retryError (.apiError .requestError) ≠ PyErr.apiError c :=
  ⟨rfl, fun _ h => PyErr.noConfusion h⟩

/-- C2 (counterexample): a refresh that reaches the endpoint and gets a
2xx response carrying `access_token` `"NEW"` but a non-numeric
`expires_in` raises `ZohoAuthError` (from the `TypeError` inside
`timedelta(seconds=...)`) after having already overwritten the stored
token: the (token, expiry) pair is updated partially, the token changed
from `"old"` to `"NEW"` with the expiry left at its old value. -/
theorem C2_partial_update_counterexample :
    refresh_access_token ⟨some "old", some 50⟩ 100
        (.response 200 (some ⟨some "NEW", some (.str "x")⟩)) =
      (⟨some "NEW", some 50⟩, some (.authError .typeError)) ∧
    (some "NEW" : Option String) ≠ some "old" ∧ status_raises 200 = false :=
  ⟨rfl, by decide, rfl⟩

/-- C2 (amended): every failed refresh raises `ZohoAuthError` wrapping
the underlying cause and never changes the stored expiry; the state is
left entirely unchanged except in one case — a response carrying an
`access_token` together with a present non-numeric `expires_in`
overwrites the stored token (and only the token) before failing. -/
theorem C2_refresh_failure_amended (st : TokenState) (now : Int) (r : HttpResult)
    (hfail : (refresh_access_token st now r).2 ≠ none) :
    (∃ c, (refresh_access_token st now r).2 = some (.authError c)) ∧
    (refresh_access_token st now r).1.token_expires_at = st.token_expires_at ∧
    ((refresh_access_token st now r).1 = st ∨
      ∃ s tok v, r = .response s (some ⟨some tok, some v⟩) ∧ (∀ n : Int, v ≠ .num n) ∧
        (refresh_access_token st now r).1 = { st with access_token := some tok }) := by
  rcases refresh_cases st now r with
    ⟨_, hres⟩ | ⟨s, b, _, _, hres⟩ | ⟨s, _, _, hres⟩ | ⟨s, ein, _, _, hres⟩ |
    ⟨s, tok, _, _, hres⟩ | ⟨s, tok, e, _, _, hres⟩ | ⟨s, tok, v, hr, _, hv, hres⟩
  · exact ⟨⟨_, by rw [hres]⟩, by rw [hres], Or.inl (by rw [hres])⟩
  · exact ⟨⟨_, by rw [hres]⟩, by rw [hres], Or.inl (by rw [hres])⟩
  · exact ⟨⟨_, by rw [hres]⟩, by rw [hres], Or.inl (by rw [hres])⟩
  · exact ⟨⟨_, by rw [hres]⟩, by rw [hres], Or.inl (by rw [hres])⟩
  · exact absurd (by rw [hres]) hfail
  · exact absurd (by rw [hres]) hfail
  · exact ⟨⟨_, by rw [hres]⟩, by rw [hres], Or.inr ⟨s, tok, v, hr, hv, by rw [hres]⟩⟩

/-- Witness for C2 (amended): a transport failure during refresh leaves
the previously stored expiry in place. -/
theorem C2_refresh_failure_witness :
    (refresh_access_token ⟨some "old", some 50⟩ 0 .transportError).1.token_expires_at =
      (⟨some "old", some 50⟩ : TokenState).token_expires_at :=
  (C2_refresh_failure_amended ⟨some "old", some 50⟩ 0 .transportError (by decide)).2.1

/-- C3 (counterexample): with a held empty-string token and a future
expiry, a token is held and is not expired, yet the `access_token`
property still performs a refresh, because `not self._access_token` is a
Python truthiness test and the empty string is falsy. -/
theorem C3_empty_token_counterexample :
    (⟨some "", some 100⟩ : TokenState).access_token ≠ none ∧
    token_expired ⟨some "", some 100⟩ 0 = false ∧
    (access_token_get ⟨some "", some 100⟩ 0 .transportError).2.2 = true :=
  ⟨by decide, by decide, by decide⟩

/-- C3 (amended): a token is reported expired iff no expiry is set or
the expiry is at or before the current time (usable iff `expiry > now`);
the `access_token` property refreshes exactly when no token is held, the
held token is the empty string, or the held token is expired, and
otherwise returns the stored token unchanged without refreshing. -/
theorem C3_expiry_and_refresh_amended (st : TokenState) (now : Int) (r : HttpResult) :
    (token_expired st now = true ↔
      st.token_expires_at = none ∨ ∃ t, st.token_expires_at = some t ∧ t ≤ now) ∧
    ((access_token_get st now r).2.2 = true ↔
      st.access_token = none ∨ st.access_token = some "" ∨
        token_expired st now = true) ∧
    ((access_token_get st now r).2.2 = false →
      access_token_get st now r = (st, .ok st.access_token, false)) := by
  refine ⟨?_, ?_, ?_⟩
  · cases h : st.token_expires_at with
    | none => simp [token_expired, h]
    | some t => simp [token_expired, h]
  · rw [access_token_get_refresh_flag]
    simp [Bool.or_eq_true, token_falsy_iff, or_assoc]
  · intro h
    rw [access_token_get_refresh_flag] at h
    simp [access_token_get, h]

/-- Witness for C3 (amended): with a held non-empty unexpired token the
accessor returns the stored token without refreshing. -/
theorem C3_expiry_and_refresh_witness :
    access_token_get ⟨some "tok", some 10⟩ 0 .transportError =
      (⟨some "tok", some 10⟩, .ok (some "tok"), false) :=
  (C3_expiry_and_refresh_amended ⟨some "tok", some 10⟩ 0 .transportError).2.2 (by decide)

/-- C4: a successful authorization response stores exactly the returned
token and sets the expiry to `now + expires_in`, where `expires_in`
defaults to 3600 seconds when the response omits it. -/
theorem C4_refresh_success (st : TokenState) (now e : Int) (s : Nat) (T : String)
    (hs : status_raises s = false) :
    refresh_access_token st now (.response s (some ⟨some T, some (.num e)⟩)) =
      ({ access_token := some T, token_expires_at := some (now + e) }, none) ∧
    refresh_access_token st now (.response s (some ⟨some T, none⟩)) =
      ({ access_token := some T, token_expires_at := some (now + 3600) }, none) := by
  constructor <;> simp [refresh_access_token, hs]

/-- Witness for C4: the response `{"access_token": "T", "expires_in": 3600}`
at time 1000 stores token `"T"` expiring at `1000 + 3600`. -/
theorem C4_refresh_success_witness :
    refresh_access_token ⟨none, none⟩ 1000
        (.response 200 (some ⟨some "T", some (.num 3600)⟩)) =
      ({ access_token := some "T", token_expires_at := some (1000 + 3600) }, none) :=
  (C4_refresh_success ⟨none, none⟩ 1000 3600 200 "T" (by decide)).1

/-- C5 (counterexample): a run of `_make_request` in which every attempt
fails makes 3 attempts with inter-attempt delays `[4, 4]` — two delays,
both at the 4-unit floor — not the claimed delays `4, 8, 10`. -/
theorem C5_delays_counterexample :
    (make_request (fun _ => .transportError)).2 = (3, [4, 4]) ∧
    ([4, 4] : List Int) ≠ [4, 8, 10] :=
  ⟨rfl, by decide⟩

/-- C5 (amended): the delay after failed attempt `n` is
`max(4, min(2^(n-1), 10))`, i.e. the sequence 4, 4, 4, 8, 10, 10, …;
every delay lies in `[4, 10]`, and under the 3-attempt stop a fully
failing run sleeps exactly twice, 4 time-units each. -/
theorem C5_delays_amended :
    wait_exponential 1 4 10 1 = 4 ∧ wait_exponential 1 4 10 2 = 4 ∧
    wait_exponential 1 4 10 3 = 4 ∧ wait_exponential 1 4 10 4 = 8 ∧
    wait_exponential 1 4 10 5 = 10 ∧ wait_exponential 1 4 10 6 = 10 ∧
    (∀ n, 4 ≤ wait_exponential 1 4 10 n ∧ wait_exponential 1 4 10 n ≤ 10) ∧
    (make_request (fun _ => .transportError)).2.2 = [4, 4] := by
  refine ⟨by decide, by decide, by decide, by decide, by decide, by decide, ?_, rfl⟩
  intro n
  unfold wait_exponential
  have h4 : Max.max (0 : Int) 4 = 4 := by decide
  rw [h4]
  exact ⟨le_max_left _ _, max_le (by norm_num) (min_le_right _ _)⟩

/-- C6: `get_invoices` always sends `organization_id` and sends
`date_start`, `date_end`, `status` exactly for the provided arguments
(an argument here being a supplied non-empty string; the empty-string
edge is the subject of C9); both concrete instances of the claim hold
verbatim. -/
theorem C6_query_params (org : String) (fd td stt : Option String)
    (rs : Nat → ApiHttpResult)
    (hfd : fd ≠ some "") (htd : td ≠ some "") (hst : stt ≠ some "") :
    (get_invoices org fd td stt rs).2.1 =
      [("organization_id", org)] ++ (fd.map fun s => ("date_start", s)).toList ++
      (td.map fun s => ("date_end", s)).toList ++
      (stt.map fun s => ("status", s)).toList ∧
    get_invoices_params org (some "2024-01-01") (some "2024-01-31") (some "sent") =
      [("organization_id", org), ("date_start", "2024-01-01"),
       ("date_end", "2024-01-31"), ("status", "sent")] ∧
    get_invoices_params org none none none = [("organization_id", org)] := by
  refine ⟨?_, rfl, rfl⟩
  rw [get_invoices_sends_params]
  unfold get_invoices_params
  rw [add_param_toList _ _ _ hfd, add_param_toList _ _ _ htd, add_param_toList _ _ _ hst]

/-- Witness for C6: the claim's fully specified call sends exactly the
four parameters in order. -/
theorem C6_query_params_witness :
    (get_invoices "ORG" (some "2024-01-01") (some "2024-01-31") (some "sent")
        (fun _ => .transportError)).2.1 =
      [("organization_id", "ORG")] ++ [("date_start", "2024-01-01")] ++
      [("date_end", "2024-01-31")] ++ [("status", "sent")] :=
  (C6_query_params "ORG" (some "2024-01-01") (some "2024-01-31") (some "sent")
    (fun _ => .transportError) (by decide) (by decide) (by decide)).1

/-- C7: `get_invoices` returns the list stored under the `"invoices"`
key of the parsed response, and returns the empty list — not an error —
when the key is missing. -/
theorem C7_missing_invoices_key (org : String) (l : List Invoice) :
    (get_invoices org none none none (fun _ => .response 200 ⟨some l⟩)).1 = .ok l ∧
    (get_invoices org none none none (fun _ => .response 200 ⟨none⟩)).1 =
      .ok ([] : List Invoice) :=
  ⟨rfl, rfl⟩

/-- C8 (counterexample): a refresh that reaches the endpoint, receives a
success status and a payload containing `access_token` still raises
`ZohoAuthError` when `expires_in` is present but non-numeric — a failure
outside the three cases listed by the claim. -/
theorem C8_autherror_counterexample :
    refresh_access_token ⟨none, none⟩ 0
        (.response 200 (some ⟨some "T", some (.str "soon")⟩)) =
      (⟨some "T", none⟩, some (.authError .typeError)) ∧
    status_raises 200 = false :=
  ⟨rfl, rfl⟩

/-- C8 (amended): a refresh raises `ZohoAuthError` iff the endpoint is
unreachable, the status is an error status, the body is unparseable, the
payload misses `access_token`, or the payload's `expires_in` is present
and non-numeric; in all remaining cases the refresh succeeds and no
error is raised. -/
theorem C8_autherror_iff (st : TokenState) (now : Int) (r : HttpResult) :
    (refresh_access_token st now r).2 ≠ none ↔
      (r = .transportError ∨
       (∃ s b, r = .response s b ∧ status_raises s = true) ∨
       (∃ s, r = .response s none ∧ status_raises s = false) ∨
       (∃ s b, r = .response s (some b) ∧ status_raises s = false ∧
         b.access_token = none) ∨
       (∃ s tok v, r = .response s (some ⟨some tok, some v⟩) ∧
         status_raises s = false ∧ ∀ n : Int, v ≠ .num n)) := by
  constructor
  · intro hfail
    rcases refresh_cases st now r with
      ⟨hr, hres⟩ | ⟨s, b, hr, hs, hres⟩ | ⟨s, hr, hs, hres⟩ | ⟨s, ein, hr, hs, hres⟩ |
      ⟨s, tok, hr, hs, hres⟩ | ⟨s, tok, e, hr, hs, hres⟩ | ⟨s, tok, v, hr, hs, hv, hres⟩
    · exact Or.inl hr
    · exact Or.inr (Or.inl ⟨s, b, hr, hs⟩)
    · exact Or.inr (Or.inr (Or.inl ⟨s, hr, hs⟩))
    · exact Or.inr (Or.inr (Or.inr (Or.inl ⟨s, ⟨none, ein⟩, hr, hs, rfl⟩)))
    · exact absurd (by rw [hres]) hfail
    · exact absurd (by rw [hres]) hfail
    · exact Or.inr (Or.inr (Or.inr (Or.inr ⟨s, tok, v, hr, hs, hv⟩)))
  · intro hcond
    rcases hcond with
      hr | ⟨s, b, hr, hs⟩ | ⟨s, hr, hs⟩ | ⟨s, b, hr, hs, hb⟩ | ⟨s, tok, v, hr, hs, hv⟩
    · subst hr
      simp [refresh_access_token]
    · subst hr
      simp [refresh_access_token, hs]
    · subst hr
      simp [refresh_access_token, hs]
    · subst hr
      obtain ⟨tk, ein⟩ := b
      cases tk with
      | none => simp [refresh_access_token, hs]
      | some tok => exact Option.noConfusion hb
    · subst hr
      cases v with
      | num n => exact absurd rfl (hv n)
      | str sv => simp [refresh_access_token, hs]
      | null => simp [refresh_access_token, hs]

/-- Witness for C8: a transport failure during refresh raises. -/
theorem C8_autherror_iff_witness :
    (refresh_access_token ⟨none, none⟩ 0 .transportError).2 ≠ none :=
  (C8_autherror_iff ⟨none, none⟩ 0 .transportError).mpr (Or.inl rfl)

/-- C9: passing the empty string for any of the three optional filters
builds exactly the same query parameters as omitting that argument. -/
theorem C9_empty_string_as_absent (org : String) (a b : Option String) :
    get_invoices_params org (some "") a b = get_invoices_params org none a b ∧
    get_invoices_params org a (some "") b = get_invoices_params org a none b ∧
    get_invoices_params org a b (some "") = get_invoices_params org a b none :=
  ⟨rfl, rfl, rfl⟩

/-- C10 (counterexample): a refresh that succeeds on the payload
`{"access_token": "", "expires_in": 3600}` stores the empty string — a
successful refresh does not guarantee a non-empty stored token. -/
theorem C10_empty_token_stored :
    refresh_access_token ⟨none, none⟩ 0
        (.response 200 (some ⟨some "", some (.num 3600)⟩)) =
      (⟨some "", some (0 + 3600)⟩, none) ∧
    (⟨some "", some (0 + 3600)⟩ : TokenState).access_token = some "" :=
  ⟨rfl, rfl⟩

/-- C10 (amended): a successful refresh whose response provides a
strictly positive `expires_in` (or omits it, taking the 3600 default)
raises nothing, stores exactly the response's token — which is non-empty
only when the response's token is — and leaves `_token_expired` false at
the refresh instant. -/
theorem C10_refresh_usable_amended (st : TokenState) (now : Int) (s : Nat) (tok : String)
    (ein : Option JsonV) (hs : status_raises s = false)
    (he : ein = none ∨ ∃ e : Int, ein = some (.num e) ∧ 0 < e) :
    (refresh_access_token st now (.response s (some ⟨some tok, ein⟩))).2 = none ∧
    (refresh_access_token st now (.response s (some ⟨some tok, ein⟩))).1.access_token =
      some tok ∧
    token_expired (refresh_access_token st now (.response s (some ⟨some tok, ein⟩))).1
      now = false := by
  rcases he with he | ⟨e, he, hpos⟩
  · subst he
    refine ⟨by simp [refresh_access_token, hs], by simp [refresh_access_token, hs], ?_⟩
    simp [refresh_access_token, hs, token_expired]
  · subst he
    refine ⟨by simp [refresh_access_token, hs], by simp [refresh_access_token, hs], ?_⟩
    simp [refresh_access_token, hs, token_expired]
    omega

/-- Witness for C10 (amended): after a refresh with `expires_in = 3600`
at time 0 the held token is not expired at time 0. -/
theorem C10_refresh_usable_witness :
    token_expired
      (refresh_access_token ⟨none, none⟩ 0
        (.response 200 (some ⟨some "T", some (.num 3600)⟩))).1 0 = false :=
  (C10_refresh_usable_amended ⟨none, none⟩ 0 200 "T" (some (.num 3600)) (by decide)
    (Or.inr ⟨3600, rfl, by decide⟩)).2.2

end Zoho
